import Mathlib

/-!
# Verification of the table-reference rendering core (`src/tables.js`)

This file gives a shallow embedding of the table-reference renderers of the
repository (`unnestToSQL`, `pivotOperatorToSQL`, `operatorToSQL`,
`tableHintToSQL`, `tableTumbleToSQL`, `temporalTableOptionToSQL`,
`temporalTableToSQL`, `generateVirtualTable`, `tableToSQL`, `tablesToSQL`,
`tableOptionToSQL`) and proves the spec's claims about them.

Modelling conventions:
* JavaScript `undefined` is `Option.none`; optional object fields are `Option`.
* A renderer that can hit a JavaScript `TypeError` (property access or method
  call on `undefined`, `.map` on a non-array) returns `Except String String`;
  the `.error` case is the thrown exception.
* The external collaborator renderers (expression, column reference, binary,
  values list, interval, literal, identifier) are not part of this core
  (spec sections 1 and 6): an expression node is opaque and is carried as the
  text its external renderer would produce.
-/

/-- An external expression node (also column references, binary expressions,
`VALUES` lists, interval literals and literal values), opaque to this core and
carried as its rendered text: the spec (section 6) presents the collaborating
renderers as pure text producers. -/
inductive Expr where
  | raw (s : String)
deriving DecidableEq, Repr

/-- Modelled from the spec: `renderExpression(expr) -> text` (section 6), an
external pure text producer; the opaque node carries its output. -/
def exprToSQL : Expr → String
  | .raw s => s

/-- `exprToSQL` applied to a possibly absent node; an absent node renders no
text (spec section 7: absent fields mean "omit this segment"). -/
def exprToSQLOpt : Option Expr → String
  | none => ""
  | some e => exprToSQL e

/-- Modelled from the spec: `renderColumnRef(col) -> text` (section 6). -/
def columnRefToSQL : Expr → String := exprToSQL

/-- `columnRefToSQL` on a possibly absent node. -/
def columnRefToSQLOpt : Option Expr → String
  | none => ""
  | some e => columnRefToSQL e

/-- Modelled from the spec: `renderBinary(expr) -> text` (section 6). -/
def binaryToSQL : Expr → String := exprToSQL

/-- `binaryToSQL` on a possibly absent node. -/
def binaryToSQLOpt : Option Expr → String
  | none => ""
  | some e => binaryToSQL e

/-- Modelled from the spec: `renderValuesList(rows) -> text` (section 6). -/
def valuesToSQL : Expr → String := exprToSQL

/-- `valuesToSQL` on a possibly absent node. -/
def valuesToSQLOpt : Option Expr → String
  | none => ""
  | some e => valuesToSQL e

/-- Modelled from the spec: `renderInterval(spec) -> text` (section 6). -/
def intervalToSQL : Expr → String := exprToSQL

/-- `intervalToSQL` on a possibly absent node. -/
def intervalToSQLOpt : Option Expr → String
  | none => ""
  | some e => intervalToSQL e

/-- Modelled from the spec: `renderLiteral(value) -> text` (section 6). -/
def literalToSQL : Expr → String := exprToSQL

/-- `literalToSQL` on a possibly absent value: an absent value renders as
absent (dropped by the presence filter). -/
def literalToSQLOpt : Option Expr → Option String
  | none => none
  | some e => some (literalToSQL e)

/-- Modelled from the spec: `renderIdentifier(name) -> text` (section 6)
quotes/escapes a bare identifier; identifier quoting rules are out of scope
(section 1), and with no quoting dialect configured the identifier is returned
unchanged. -/
def identifierToSql : String → String := fun s => s

/-- `identifierToSql` on a possibly absent identifier: a JS-falsy identifier
(absent or empty) yields no text. -/
def identifierToSqlOpt : Option String → Option String
  | none => none
  | some s => if s = "" then none else some (identifierToSql s)

/-- JS `String.prototype.toUpperCase` (ASCII), in a kernel-computable form. -/
def toUpperStr (s : String) : String := String.mk (s.data.map Char.toUpper)

/-- JS `String.prototype.toLowerCase` (ASCII), in a kernel-computable form. -/
def toLowerStr (s : String) : String := String.mk (s.data.map Char.toLower)

/-- Modelled from the spec: `upper(keyword) -> text` (section 6); a JS-falsy
keyword (absent or empty) yields no text. -/
def toUpper : Option String → Option String
  | none => none
  | some s => if s = "" then none else some (toUpperStr s)

/-- Modelled from the spec: `present(text) -> bool` (section 6) — true iff a
rendered segment should be kept; JS-falsy segments (`undefined`, the empty
string) are dropped. -/
def hasVal : Option String → Bool
  | none => false
  | some s => decide (¬ s = "")

/-- The `.filter(hasVal)` step of the source, over possibly absent segments. -/
def filterHasVal (xs : List (Option String)) : List String :=
  xs.filterMap (fun o => if hasVal o then o else none)

/-- The ubiquitous `xs.filter(hasVal).join(sep)` pattern of the source. -/
def joinHasVal (sep : String) (xs : List (Option String)) : String :=
  String.intercalate sep (filterHasVal xs)

/-- `xs.filter(hasVal).join(sep)` when every element of `xs` is a string. -/
def joinHasValS (sep : String) (xs : List String) : String :=
  String.intercalate sep (xs.filter (fun s => decide (¬ s = "")))

/-- JS template-literal interpolation of a possibly absent string: `undefined`
interpolates as the text `undefined`. -/
def jsStr : Option String → String
  | none => "undefined"
  | some s => s

/-- JS `Array.prototype.join` coerces an `undefined` element to the empty
string; this maps a JS-falsy identifier through `identifierToSql` the way
`xs.map(identifierToSql).join(sep)` sees it. -/
def identifierToSqlJoinElem (s : String) : String :=
  if s = "" then "" else identifierToSql s

/-- Modelled from the spec: `connect(keyword, renderFn, value) -> text`
(section 6) — empty if `value` is absent (or JS-falsy), else
`"<KEYWORD> <renderFn(value)>"`; an absent keyword yields the bare rendered
value. This is the string-valued-option instance. -/
def commonOptionConnector (keyword : Option String) (action : String → String)
    (opt : Option String) : Option String :=
  match opt with
  | none => none
  | some v =>
      if v = "" then none
      else
        match keyword with
        | none => some (action v)
        | some kw => if kw = "" then some (action v) else some (kw ++ " " ++ action v)

/-- `connect` where the value is an expression node (a JS object, always
truthy). -/
def commonOptionConnectorExpr (keyword : String) (opt : Option Expr) : Option String :=
  opt.map (fun e => keyword ++ " " ++ exprToSQL e)

/-- An alias value: the source tests `typeof as === 'string'` in
`unnestToSQL`, so an alias is either a bare identifier string or a full
expression node. -/
inductive AliasVal where
  | str (s : String)
  | expr (e : Expr)
deriving DecidableEq, Repr

/-- `connect('AS', ..., as)` where the alias may be a string (JS-falsy when
empty, rendered through `identifierToSql`) or an expression node (always
truthy; rendered through the external expression renderer — in `tableToSQL`
the external `identifierToSql` receives the non-string node, modelled by the
node's text). -/
def commonOptionConnectorAlias (keyword : String) (opt : Option AliasVal) : Option String :=
  match opt with
  | none => none
  | some (.str s) => if s = "" then none else some (keyword ++ " " ++ identifierToSql s)
  | some (.expr e) => some (keyword ++ " " ++ exprToSQL e)

/-- Modelled from the spec: `renderTriple(node) -> ordered list of text`
(section 6); the generator triple node is opaque, carried as the ordered
texts the external renderer returns. -/
def commonTypeValue : List String → List String := fun l => l

/-- The `with_offset` sub-object of an UNNEST node: `{keyword, as}`. -/
structure WithOffset where
  keyword : Option String := none
  as : Option String := none
deriving DecidableEq, Repr

/-- The `tablesample` sub-object: `{expr, repeatable}`. -/
structure TableSample where
  expr : Option Expr := none
  repeatable : Option Expr := none
deriving DecidableEq, Repr

/-- The inner temporal clause object: `{keyword, of, from, to, between, and,
in}`. `of`/`from`/`to`/`and`/`in` collide with Lean keywords, so the fields
are suffixed with `E`. -/
structure TemporalOpt where
  keyword : Option String := none
  ofE : Option Expr := none
  fromE : Option Expr := none
  toE : Option Expr := none
  betweenE : Option Expr := none
  andE : Option Expr := none
  inE : Option Expr := none
deriving DecidableEq, Repr

/-- The `temporal_table` sub-object: `{keyword, expr}`. -/
structure TemporalTable where
  keyword : Option String := none
  expr : Option TemporalOpt := none
deriving DecidableEq, Repr

/-- A pivot/unpivot operator node: `{as, column, expr, in_expr, type}`. -/
structure PivotOp where
  type : Option String := none
  as : Option String := none
  column : Option Expr := none
  expr : Option Expr := none
  in_expr : Option Expr := none
deriving DecidableEq, Repr

/-- The dynamically-typed `expr` slot of a table-hint item: an expression
node, an array of identifiers (the `index (...)` form), or a bare
identifier. -/
inductive HintVal where
  | expr (e : Expr)
  | ids (l : List String)
  | ident (s : String)
deriving DecidableEq, Repr

/-- A table-hint item: `{keyword, expr, index, index_columns, parentheses,
prefix}` (the source destructures `prefix` into `prefixStr`-like local use;
the field is named `prefixStr` here). -/
structure TableHint where
  keyword : Option String := none
  expr : Option HintVal := none
  index : Option String := none
  index_columns : Option (List Expr) := none
  parentheses : Bool := false
  prefixStr : Option String := none
deriving DecidableEq, Repr

/-- The `table_hint` sub-object of a table reference: `{keyword, expr: list}`. -/
structure TableHintClause where
  keyword : Option String := none
  expr : Option (List TableHint) := none
deriving DecidableEq, Repr

/-- The `data` sub-object of a TUMBLE node: `{db, table}`. -/
structure TumbleData where
  db : Option String := none
  table : Option String := none
deriving DecidableEq, Repr

/-- A TUMBLE window node: `{data, timecol, size}`. -/
structure Tumble where
  data : Option TumbleData := none
  timecol : Option Expr := none
  size : Option Expr := none
deriving DecidableEq, Repr

/-- A virtual-table generator node: `{keyword, type, generators}`; each
generator is an opaque triple carried as its rendered texts. -/
structure Generator where
  keyword : Option String := none
  type : Option String := none
  generators : Option (List (List String)) := none
deriving DecidableEq, Repr

/-- The derived-table body `expr` of a table reference; its `type` tag selects
`values` / `tumble` / `generator`, any other shape falls through to the
external expression renderer (carried opaque as `other`). -/
inductive TableExpr where
  | values (parentheses : Bool) (vals : Option Expr) (prefixStr : Option String)
  | tumble (t : Tumble)
  | generator (g : Generator)
  | other (e : Expr)
deriving DecidableEq, Repr

/-- A table reference / join entry. Join entries are table references with
the extra `join`, `on`, `using` fields (spec section 3); `using` collides
with Lean keywords, so those two fields are named `onC` and `usingC`. -/
structure TableRef where
  type : Option String := none
  table : Option String := none
  db : Option String := none
  schema : Option String := none
  server : Option String := none
  as : Option AliasVal := none
  expr : Option TableExpr := none
  operator : Option PivotOp := none
  prefixStr : Option String := none
  suffix : Option String := none
  parentheses : Bool := false
  tablesample : Option TableSample := none
  temporal_table : Option TemporalTable := none
  table_hint : Option TableHintClause := none
  with_offset : Option WithOffset := none
  join : Option String := none
  onC : Option Expr := none
  usingC : Option (List String) := none
deriving DecidableEq, Repr

/-- The argument of `tablesToSQL`: JS `undefined`/`null` (`nil`), a wrapper
object `{expr, parentheses}`, or an array of table references. -/
inductive Tables where
  | nil
  | wrap (expr : Tables) (parentheses : Bool)
  | arr (ts : List TableRef)
deriving DecidableEq, Repr

/-- One sub-option of the `options` table option: `{keyword, symbol, value}`. -/
structure TableOptionItem where
  keyword : Option String := none
  symbol : Option String := none
  value : Option Expr := none
deriving DecidableEq, Repr

/-- The dynamically-typed `value` of a table option: a single literal or
expression node, or an array of sub-options. -/
inductive TOValue where
  | single (e : Expr)
  | list (xs : List TableOptionItem)
deriving DecidableEq, Repr

/-- A table option node: `{keyword, symbol, value}`. -/
structure TableOption where
  keyword : Option String := none
  symbol : Option String := none
  value : Option TOValue := none
deriving DecidableEq, Repr

/-- `unnestToSQL(unnestExpr)`: renders `<TYPE>(<expr>)`, the optional
`AS <alias>` connector, and the optional with-offset connector
`<KEYWORD> <identifier>`, then `filter(hasVal).join(' ')`. -/
def unnestToSQL (unnestExpr : TableRef) : String :=
  let exprText : String :=
    match unnestExpr.expr with
    | none => ""
    | some (.other e) => exprToSQL e
    | some _ => ""
  let result : List (Option String) :=
    [some (jsStr (toUpper unnestExpr.type) ++ "(" ++ exprText ++ ")"),
     commonOptionConnectorAlias "AS" unnestExpr.as,
     commonOptionConnector
       (toUpper (unnestExpr.with_offset.bind (fun w => w.keyword)))
       identifierToSql
       (unnestExpr.with_offset.bind (fun w => w.as))]
  joinHasVal " " result

/-- `pivotOperatorToSQL(operator)`: `<TYPE>(<expr> FOR <column> <in_expr>)`,
then optionally ` AS <alias>`; the inner list is joined unfiltered. -/
def pivotOperatorToSQL (operator : PivotOp) : String :=
  let result : List String :=
    [exprToSQLOpt operator.expr, "FOR", columnRefToSQLOpt operator.column,
     binaryToSQLOpt operator.in_expr]
  let head := jsStr (toUpper operator.type) ++ "(" ++ String.intercalate " " result ++ ")"
  match operator.as with
  | none => head
  | some a => if a = "" then head else head ++ " AS " ++ identifierToSql a

/-- `operatorToSQL(operator)`: `undefined` for an absent operator; dispatch on
`type`, any tag other than `pivot`/`unpivot` yields the empty string. -/
def operatorToSQL (operator : Option PivotOp) : Option String :=
  match operator with
  | none => none
  | some op =>
      if op.type = some "pivot" ∨ op.type = some "unpivot" then
        some (pivotOperatorToSQL op)
      else some ""

/-- The `= ${identifierToSql(expr)}` template of the `index` hint form: the
external identifier renderer receives the dynamic `expr` slot; a JS-falsy
value interpolates as `undefined`, a non-string node is carried as its
text (arrays coerce comma-joined). -/
def hintIdentSQL : Option HintVal → String
  | none => "undefined"
  | some (.ident s) => if s = "" then "undefined" else identifierToSql s
  | some (.expr e) => exprToSQL e
  | some (.ids l) => String.intercalate "," l

/-- `exprToSQL` applied to the dynamic hint `expr` slot (external renderer on
a possibly absent or non-expression value, modelled as its text or empty). -/
def hintExprSQL : Option HintVal → String
  | none => ""
  | some (.expr e) => exprToSQL e
  | some (.ident s) => s
  | some (.ids _) => ""

/-- `tableHintToSQL(tableHintExpr)`: dispatch on `keyword.toLowerCase()` —
a `TypeError` when `keyword` is absent; `forceseek` maps over
`index_columns` (a `TypeError` when absent); `index` with `parentheses` maps
over `expr` (a `TypeError` when `expr` is not an array). -/
def tableHintToSQL (tableHintExpr : TableHint) : Except String String :=
  match tableHintExpr.keyword with
  | none => .error "TypeError: Cannot read properties of undefined (reading toLowerCase)"
  | some kw =>
      if toLowerStr kw = "forceseek" then
        match tableHintExpr.index_columns with
        | none => .error "TypeError: Cannot read properties of undefined (reading map)"
        | some cols =>
            .ok (joinHasVal " "
              [toUpper (some kw),
               some ("(" ++ jsStr (identifierToSqlOpt tableHintExpr.index)),
               some ("(" ++ joinHasValS ", " (cols.map exprToSQL) ++ "))")])
      else if toLowerStr kw = "spatial_window_max_cells" then
        .ok (joinHasVal " "
          [toUpper (some kw), some "=", some (hintExprSQL tableHintExpr.expr)])
      else if toLowerStr kw = "index" then
        if tableHintExpr.parentheses then
          match tableHintExpr.expr with
          | some (.ids l) =>
              .ok (joinHasVal " "
                [toUpper tableHintExpr.prefixStr, toUpper (some kw),
                 some ("(" ++ String.intercalate ", " (l.map identifierToSqlJoinElem) ++ ")")])
          | _ => .error "TypeError: expr.map is not a function"
        else
          .ok (joinHasVal " "
            [toUpper tableHintExpr.prefixStr, toUpper (some kw),
             some ("= " ++ hintIdentSQL tableHintExpr.expr)])
      else
        .ok (joinHasVal " " [some (hintExprSQL tableHintExpr.expr)])

/-- `tableTumbleToSQL(tumble)`: empty for an absent node; reads
`tumble.data.db` / `tumble.data.table` (a `TypeError` when `data` is absent),
then `TABLE(TUMBLE(TABLE <db.table> DESCRIPTOR(<timecol>) <size>))`. -/
def tableTumbleToSQL (tumble : Option Tumble) : Except String String :=
  match tumble with
  | none => .ok ""
  | some tu =>
      match tu.data with
      | none => .error "TypeError: Cannot read properties of undefined (reading db)"
      | some tableInfo =>
          let fullTableName :=
            joinHasVal "." [identifierToSqlOpt tableInfo.db, identifierToSqlOpt tableInfo.table]
          .ok (joinHasVal " "
            [some "TABLE(TUMBLE(TABLE", some fullTableName,
             some ("DESCRIPTOR(" ++ columnRefToSQLOpt tu.timecol ++ ")"),
             some (intervalToSQLOpt tu.size ++ "))")])

/-- `temporalTableOptionToSQL(stmt)`: dispatch on the inner `keyword` —
`as` / `from_to` / `between_and` / `contained`; any other keyword leaves the
clause empty; the parts are `filter(hasVal).join(' ')`-ed. -/
def temporalTableOptionToSQL (stmt : TemporalOpt) : String :=
  let result : List String :=
    if stmt.keyword = some "as" then
      ["AS", "OF", exprToSQLOpt stmt.ofE]
    else if stmt.keyword = some "from_to" then
      ["FROM", exprToSQLOpt stmt.fromE, "TO", exprToSQLOpt stmt.toE]
    else if stmt.keyword = some "between_and" then
      ["BETWEEN", exprToSQLOpt stmt.betweenE, "AND", exprToSQLOpt stmt.andE]
    else if stmt.keyword = some "contained" then
      ["CONTAINED", "IN", exprToSQLOpt stmt.inE]
    else []
  joinHasValS " " result

/-- `temporalTableToSQL(stmt)`: `undefined` for an absent node; destructuring
`stmt.expr` inside `temporalTableOptionToSQL` is a `TypeError` when the inner
clause object is absent; else `<KEYWORD> <clause>` with `hasVal` filtering. -/
def temporalTableToSQL (stmt : Option TemporalTable) : Except String (Option String) :=
  match stmt with
  | none => .ok none
  | some st =>
      match st.expr with
      | none => .error "TypeError: Cannot destructure property keyword of undefined"
      | some o =>
          .ok (some (joinHasVal " " [toUpper st.keyword, some (temporalTableOptionToSQL o)]))

/-- `generateVirtualTable(stmt)`: `<KEYWORD>(<TYPE>(<gen1>, <gen2>, ...))`;
mapping over `generators` is a `TypeError` when the field is absent. -/
def generateVirtualTable (stmt : Generator) : Except String String :=
  match stmt.generators with
  | none => .error "TypeError: Cannot read properties of undefined (reading map)"
  | some gs =>
      let generatorSQL :=
        String.intercalate ", " (gs.map (fun g => String.intercalate " " (commonTypeValue g)))
      .ok (jsStr (toUpper stmt.keyword) ++ "(" ++ jsStr (toUpper stmt.type) ++
        "(" ++ generatorSQL ++ "))")

/-- The `expr` dispatch of `tableToSQL` (the `switch (exprType)`): computes
the replacement `tableName`; `values` applies the optional row-prefix keyword
per parenthesized group, `tumble` and `generator` delegate, anything else goes
to the external expression renderer. -/
def tableNameFromExpr (expr : Option TableExpr) (tableName0 : Option String) :
    Except String (Option String) :=
  match expr with
  | none => .ok tableName0
  | some (.values parens vals px) =>
      let valuesExpr0 := valuesToSQLOpt vals
      let valuesExpr :=
        match px with
        | none => valuesExpr0
        | some p =>
            if p = "" then valuesExpr0
            else
              String.join (((valuesExpr0.splitOn "(").drop 1).map
                (fun v => toUpperStr p ++ "(" ++ v))
      .ok (some ((if parens then "(" else "") ++ "VALUES " ++ valuesExpr ++
        (if parens then ")" else "")))
  | some (.tumble tu) => (tableTumbleToSQL (some tu)).map (fun s => some s)
  | some (.generator g) => (generateVirtualTable g).map (fun s => some s)
  | some (.other e) => .ok (some (exprToSQL e))

/-- The `table_hint.expr.map(tableHintToSQL)` step: renders the hint items in
order, propagating the first thrown `TypeError`. -/
def hintItemsToSQL : List TableHint → Except String (List String)
  | [] => .ok []
  | h :: rest =>
      match tableHintToSQL h with
      | .error msg => .error msg
      | .ok s =>
          match hintItemsToSQL rest with
          | .error msg => .error msg
          | .ok ss => .ok (s :: ss)

/-- The `table_hint` tail of `tableToSQL`: when present, pushes
`toUpper(keyword)` and the parenthesized `hasVal`-filtered, comma-joined
hint items; mapping over an absent `expr` is a `TypeError`, and a faulting
item propagates. -/
def tableHintSegs (hint : Option TableHintClause) : Except String (List (Option String)) :=
  match hint with
  | none => .ok []
  | some c =>
      match c.expr with
      | none => .error "TypeError: Cannot read properties of undefined (reading map)"
      | some items =>
          match hintItemsToSQL items with
          | .error msg => .error msg
          | .ok rendered =>
              .ok [toUpper c.keyword,
                   some ("(" ++ joinHasValS ", " rendered ++ ")")]

/-- `tableToSQL(tableInfo)`: the UNNEST dispatch, the qualified-name/derived
body assembly, the prefix/suffix decoration, then `tablesample`, temporal
clause, `AS` alias, pivot operator and table hint, `hasVal`-filtered and
space-joined, finally the optional outer parentheses. -/
def tableToSQL (tableInfo : TableRef) : Except String String :=
  if toUpper tableInfo.type = some "UNNEST" then .ok (unnestToSQL tableInfo)
  else
    let serverName := identifierToSqlOpt tableInfo.server
    let database := identifierToSqlOpt tableInfo.db
    let schemaStr := identifierToSqlOpt tableInfo.schema
    let tableName0 : Option String :=
      tableInfo.table.map (fun t => if t = "" then "" else identifierToSql t)
    match tableNameFromExpr tableInfo.expr tableName0 with
    | .error msg => .error msg
    | .ok tableName1 =>
        let tableName2 :=
          joinHasVal " " [toUpper tableInfo.prefixStr, tableName1, toUpper tableInfo.suffix]
        let str :=
          joinHasVal "." [serverName, database, schemaStr, some tableName2]
        let sampleSegs : List (Option String) :=
          match tableInfo.tablesample with
          | none => []
          | some ts =>
              [some (joinHasVal " "
                [some "TABLESAMPLE", some (exprToSQLOpt ts.expr),
                 literalToSQLOpt ts.repeatable])]
        match temporalTableToSQL tableInfo.temporal_table with
        | .error msg => .error msg
        | .ok temporalSeg =>
            match tableHintSegs tableInfo.table_hint with
            | .error msg => .error msg
            | .ok hintParts =>
                let result : List (Option String) :=
                  [some str] ++ sampleSegs ++
                  [temporalSeg, commonOptionConnectorAlias "AS" tableInfo.as,
                   operatorToSQL tableInfo.operator] ++ hintParts
                let tableSQL := joinHasVal " " result
                .ok (if tableInfo.parentheses then "(" ++ tableSQL ++ ")" else tableSQL)

/-- The loop body of `tablesToSQL` for a join entry: the join keyword with a
leading space (or a comma when the keyword is JS-falsy), the entry's own table
rendering, the `ON` connector, the `USING (...)` clause, `hasVal`-filtered and
space-joined. -/
def joinClause (joinExpr : TableRef) : Except String String :=
  match tableToSQL joinExpr with
  | .error msg => .error msg
  | .ok tbl =>
      let first : String :=
        match joinExpr.join with
        | none => ","
        | some jk => if jk = "" then "," else " " ++ toUpperStr jk
      let usingSeg : Option String :=
        joinExpr.usingC.map (fun cols =>
          "USING (" ++ String.intercalate ", " (cols.map identifierToSqlJoinElem) ++ ")")
      .ok (joinHasVal " "
        [some first, some tbl, commonOptionConnectorExpr "ON" joinExpr.onC, usingSeg])

/-- Renders the tail join entries one after another, propagating a fault. -/
def joinClauses : List TableRef → Except String (List String)
  | [] => .ok []
  | j :: rest =>
      match joinClause j with
      | .error msg => .error msg
      | .ok s =>
          match joinClauses rest with
          | .error msg => .error msg
          | .ok ss => .ok (s :: ss)

/-- `tablesToSQL(tables)`: empty for an absent argument; a non-array wrapper
recurses on `expr` and optionally parenthesizes; an array reads
`tables[0].type` (a `TypeError` on an empty array — `tables[0]` is
`undefined`), short-circuits to `DUAL` on the exact tag `dual`, else renders
the base table and each join entry and concatenates the `hasVal`-filtered
clauses with no separator. -/
def tablesToSQL : Tables → Except String String
  | .nil => .ok ""
  | .wrap e parens =>
      match tablesToSQL e with
      | .error msg => .error msg
      | .ok sql => .ok (if parens then "(" ++ sql ++ ")" else sql)
  | .arr [] => .error "TypeError: Cannot read properties of undefined (reading type)"
  | .arr (baseTable :: rest) =>
      if baseTable.type = some "dual" then .ok "DUAL"
      else
        match tableToSQL baseTable with
        | .error msg => .error msg
        | .ok base =>
            match joinClauses rest with
            | .error msg => .error msg
            | .ok segs => .ok (String.join ((base :: segs).filter (fun s => decide (¬ s = ""))))

/-- `exprToSQL` applied by the `cluster by` arm to each element of `value`
(externally rendered sub-nodes, modelled by the text of their `value`
slot). -/
def tableOptionItemExprSQL (it : TableOptionItem) : String :=
  exprToSQLOpt it.value

/-- `literalToSQL(value)` in the default arm of `tableOptionToSQL`: absent
stays absent; a non-literal array value is outside the external literal
renderer's domain and is modelled as absent. -/
def literalTOValue : Option TOValue → Option String
  | none => none
  | some (.single e) => some (literalToSQL e)
  | some (.list _) => none

/-- `exprToSQL(value)` in the `partition by` / `default collate` arms
(external renderer on the dynamic value, modelled by its text). -/
def exprTOValue : Option TOValue → String
  | none => ""
  | some (.single e) => exprToSQL e
  | some (.list _) => ""

/-- `tableOptionToSQL(tableOption)`: `keyword.toUpperCase()` is a `TypeError`
when `keyword` is absent; the optional `symbol`; then the keyword-dependent
`value` rendering (`options` and `cluster by` map over `value`, a `TypeError`
when it is not an array); joined by spaces with `undefined` coerced to the
empty string by `Array.join`. -/
def tableOptionToSQL (tableOption : TableOption) : Except String String :=
  match tableOption.keyword with
  | none => .error "TypeError: Cannot read properties of undefined (reading toUpperCase)"
  | some kw =>
      let sql0 : List String :=
        match tableOption.symbol with
        | none => [toUpperStr kw]
        | some sy => if sy = "" then [toUpperStr kw] else [toUpperStr kw, sy]
      let valE : Except String (Option String) :=
        if kw = "partition by" ∨ kw = "default collate" then
          .ok (some (exprTOValue tableOption.value))
        else if kw = "options" then
          match tableOption.value with
          | some (.list xs) =>
              .ok (some ("(" ++ String.intercalate ", " (xs.map (fun it =>
                String.intercalate " "
                  [jsStr it.keyword, jsStr it.symbol, exprToSQLOpt it.value])) ++ ")"))
          | _ => .error "TypeError: value.map is not a function"
        else if kw = "cluster by" then
          match tableOption.value with
          | some (.list xs) =>
              .ok (some (String.intercalate ", " (xs.map tableOptionItemExprSQL)))
          | _ => .error "TypeError: value.map is not a function"
        else .ok (literalTOValue tableOption.value)
      match valE with
      | .error msg => .error msg
      | .ok val =>
          .ok (String.intercalate " " ((sql0 ++ [val.getD ""]).map (fun s => s)))

/-- Discriminates a successful rendering from a thrown `TypeError`. -/
def rendersOk {α : Type} : Except String α → Bool
  | .ok _ => true
  | .error _ => false

theorem append_ne_empty_left (s t : String) (h : ¬ s = "") : ¬ (s ++ t) = "" := by
  intro he
  apply h
  have h2 := congrArg String.data he
  simp only [String.data_append] at h2
  exact String.ext (List.append_eq_nil.mp h2).1

theorem append_ne_empty_right (s t : String) (h : ¬ t = "") : ¬ (s ++ t) = "" := by
  intro he
  apply h
  have h2 := congrArg String.data he
  simp only [String.data_append] at h2
  exact String.ext (List.append_eq_nil.mp h2).2

theorem joinHasVal_single (sep s : String) : joinHasVal sep [some s] = s := by
  by_cases h : s = ""
  · subst h; simp [joinHasVal, filterHasVal, hasVal, String.intercalate]
  · simp [joinHasVal, filterHasVal, hasVal, h, String.intercalate, String.intercalate.go]

/-- C1: for a non-empty chain whose first entry carries the exact `dual` type
tag, `tablesToSQL` renders exactly `DUAL`, and the remaining entries of the
chain have no effect on the output. -/
theorem tablesToSQL_dual_short_circuit (t : TableRef) (rest : List TableRef)
    (h : t.type = some "dual") :
    tablesToSQL (.arr (t :: rest)) = .ok "DUAL" := by
  unfold tablesToSQL
  simp [h]

theorem tablesToSQL_dual_short_circuit_witness :
    ({ type := some "dual", table := some "ignored" } : TableRef).type = some "dual" ∧
    tablesToSQL (.arr [{ type := some "dual", table := some "ignored" },
      { join := some "INNER JOIN", table := some "x",
        onC := some (.raw "a = b") }]) = .ok "DUAL" :=
  ⟨rfl, tablesToSQL_dual_short_circuit _ _ rfl⟩

/-- C4: for a wrapper chain node `{expr, parentheses: true}`, the output of
`tablesToSQL` is exactly the inner chain's rendering wrapped in `(` and `)`,
with no other change (a fault in the inner rendering propagates unchanged). -/
theorem tablesToSQL_wrap_parentheses (e : Tables) :
    tablesToSQL (.wrap e true) =
      Except.map (fun sql => "(" ++ sql ++ ")") (tablesToSQL e) := by
  cases h : tablesToSQL e with
  | error msg => simp only [tablesToSQL, h, Except.map]
  | ok sql => simp [tablesToSQL, h, Except.map]

theorem string_append_eq_empty_iff (s t : String) : (s ++ t) = "" ↔ (s = "" ∧ t = "") := by
  constructor
  · intro he
    have h2 := congrArg String.data he
    simp only [String.data_append] at h2
    have h3 := List.append_eq_nil.mp h2
    exact ⟨String.ext h3.1, String.ext h3.2⟩
  · intro hh
    rw [hh.1, hh.2]
    rfl

theorem toUpperStr_ne_empty (s : String) (h : ¬ s = "") : ¬ toUpperStr s = "" := by
  intro he
  apply h
  have h2 := congrArg String.data he
  simp [toUpperStr] at h2
  exact String.ext (by simpa using h2)

/-- C9: a table-reference node with every optional field absent renders to
exactly its qualified name: the present, non-empty naming parts `server`,
`db`, `schema`, `table` joined left-to-right with `.`, with no stray
separators; and with only an alias added, `{table: orders, as: o}` renders to
`orders AS o`. -/
theorem tableToSQL_qualified_name :
    (∀ (server db schema table : Option String),
      tableToSQL { server := server, db := db, schema := schema, table := table } =
        .ok (String.intercalate "."
          (([server, db, schema, table].filterMap (fun o => o)).filter
            (fun s => decide (¬ s = ""))))) ∧
    tableToSQL { table := some "orders", as := some (.str "o") } = .ok "orders AS o" := by
  constructor
  · intro server db schema table
    cases server <;> cases db <;> cases schema <;> cases table <;>
      simp [tableToSQL, tableNameFromExpr, temporalTableToSQL, tableHintSegs,
        operatorToSQL, commonOptionConnectorAlias, identifierToSqlOpt, identifierToSql,
        toUpper, joinHasVal, filterHasVal, hasVal, jsStr,
        String.intercalate, String.intercalate.go] <;>
      (try split_ifs) <;>
      simp_all [String.intercalate, String.intercalate.go, string_append_eq_empty_iff]
  · rfl

/-- C10: the dual short-circuit of `tablesToSQL` is case-sensitive — only the
exact lowercase tag `dual` yields `DUAL`, while `DUAL` and `Dual` fall through
to ordinary table rendering — unlike the UNNEST dispatch of `tableToSQL`,
which matches any casing of the type tag via uppercasing. -/
theorem dual_tag_case_sensitive :
    (∀ (s : String) (ref : TableRef), ref.type = some s → toUpperStr s = "UNNEST" →
      tableToSQL ref = .ok (unnestToSQL ref)) ∧
    tablesToSQL (.arr [{ type := some "DUAL", table := some "x" }]) = .ok "x" ∧
    tablesToSQL (.arr [{ type := some "Dual", table := some "x" }]) = .ok "x" ∧
    tablesToSQL (.arr [{ type := some "dual", table := some "x" }]) = .ok "DUAL" := by
  refine ⟨?_, by rfl, by rfl, by rfl⟩
  intro s ref h1 h2
  have hs : ¬ s = "" := by
    intro h0
    subst h0
    rw [show toUpperStr "" = "" from rfl] at h2
    exact absurd h2 (by decide)
  unfold tableToSQL
  rw [h1]
  simp [toUpper, hs, h2]

theorem dual_tag_case_sensitive_witness :
    ({ type := some "uNnEsT", expr := some (.other (.raw "tags")) } : TableRef).type =
        some "uNnEsT" ∧
    toUpperStr "uNnEsT" = "UNNEST" ∧
    tableToSQL { type := some "uNnEsT", expr := some (.other (.raw "tags")) } =
      .ok (unnestToSQL { type := some "uNnEsT", expr := some (.other (.raw "tags")) }) :=
  ⟨rfl, by decide, dual_tag_case_sensitive.1 "uNnEsT" _ rfl (by decide)⟩

/-- C3: a pivot-operator node with a tag other than `pivot`/`unpivot` makes
`operatorToSQL` return the empty result, a temporal clause whose inner keyword
is none of `as`, `from_to`, `between_and`, `contained` makes
`temporalTableOptionToSQL` return an empty clause, and both empty segments are
dropped from `tableToSQL`'s final joined output rather than emitted as empty
tokens. -/
theorem unknown_tags_empty_and_dropped :
    (∀ op : PivotOp, ¬ op.type = some "pivot" → ¬ op.type = some "unpivot" →
      operatorToSQL (some op) = some "") ∧
    (∀ o : TemporalOpt, ¬ o.keyword = some "as" → ¬ o.keyword = some "from_to" →
      ¬ o.keyword = some "between_and" → ¬ o.keyword = some "contained" →
      temporalTableOptionToSQL o = "") ∧
    (∀ (tbl : String) (op : PivotOp) (o : TemporalOpt), ¬ tbl = "" →
      ¬ op.type = some "pivot" → ¬ op.type = some "unpivot" →
      ¬ o.keyword = some "as" → ¬ o.keyword = some "from_to" →
      ¬ o.keyword = some "between_and" → ¬ o.keyword = some "contained" →
      tableToSQL { table := some tbl, operator := some op, temporal_table := some { keyword := none, expr := some o } } = .ok tbl) := by
  refine ⟨?_, ?_, ?_⟩
  · intro op h1 h2
    simp [operatorToSQL, h1, h2]
  · intro o h1 h2 h3 h4
    simp [temporalTableOptionToSQL, h1, h2, h3, h4, joinHasValS, String.intercalate]
  · intro tbl op o htbl h1 h2 h3 h4 h5 h6
    simp [tableToSQL, tableNameFromExpr, temporalTableToSQL, temporalTableOptionToSQL,
      tableHintSegs, operatorToSQL, commonOptionConnectorAlias, identifierToSqlOpt,
      identifierToSql, toUpper, joinHasVal, joinHasValS, filterHasVal, hasVal, jsStr,
      h1, h2, h3, h4, h5, h6, htbl,
      String.intercalate, String.intercalate.go]

theorem unknown_tags_empty_and_dropped_witness :
    operatorToSQL (some { type := some "weird" }) = some "" ∧
    temporalTableOptionToSQL { keyword := some "strange" } = "" ∧
    tableToSQL { table := some "x", operator := some { type := some "weird" }, temporal_table := some { keyword := none, expr := some { keyword := some "strange" } } } = .ok "x" :=
  ⟨unknown_tags_empty_and_dropped.1 _ (by decide) (by decide),
   unknown_tags_empty_and_dropped.2.1 _ (by decide) (by decide) (by decide) (by decide),
   unknown_tags_empty_and_dropped.2.2 "x" _ _ (by decide) (by decide) (by decide)
     (by decide) (by decide) (by decide) (by decide)⟩

/-- C8: a base-table node with a `tablesample` field gets the sampling clause
appended after the table name: `TABLESAMPLE`, then the rendered sampling
expression, then the rendered repeatable literal; in particular a node whose
sampling expression renders as `(10)` and whose repeatable literal renders as
`REPEATABLE (5)` gives `orders TABLESAMPLE (10) REPEATABLE (5)`. -/
theorem tableToSQL_tablesample :
    (∀ (tbl e r : String), ¬ tbl = "" → ¬ e = "" → ¬ r = "" →
      tableToSQL { table := some tbl, tablesample := some { expr := some (.raw e), repeatable := some (.raw r) } } =
        .ok (tbl ++ " TABLESAMPLE " ++ e ++ " " ++ r)) ∧
    tableToSQL { table := some "orders", tablesample := some { expr := some (.raw "(10)"), repeatable := some (.raw "REPEATABLE (5)") } } =
      .ok "orders TABLESAMPLE (10) REPEATABLE (5)" := by
  constructor
  · intro tbl e r htbl he hr
    simp [tableToSQL, tableNameFromExpr, temporalTableToSQL, tableHintSegs,
      operatorToSQL, commonOptionConnectorAlias, identifierToSqlOpt, identifierToSql,
      exprToSQL, exprToSQLOpt, literalToSQL, literalToSQLOpt,
      toUpper, joinHasVal, filterHasVal, hasVal, jsStr, htbl, he, hr,
      string_append_eq_empty_iff,
      String.intercalate, String.intercalate.go, String.append_assoc]
    apply String.ext
    simp [String.data_append]
  · rfl

/-- C6: `temporalTableToSQL` renders the uppercased outer keyword followed by
the clause selected by the inner keyword — `as` gives `AS OF <expr>`,
`from_to` gives `FROM <expr> TO <expr>`, `between_and` gives
`BETWEEN <expr> AND <expr>`, `contained` gives `CONTAINED IN <expr>` — and the
`for_system_time` example node renders through `tableToSQL` to
`t FOR_SYSTEM_TIME AS OF <timestamp-text>`. -/
theorem temporalTableToSQL_rendering :
    (∀ (kw e : String), ¬ kw = "" → ¬ e = "" →
      temporalTableToSQL (some { keyword := some kw, expr := some { keyword := some "as", ofE := some (.raw e) } }) =
        .ok (some (toUpperStr kw ++ " AS OF " ++ e))) ∧
    (∀ (kw e1 e2 : String), ¬ kw = "" → ¬ e1 = "" → ¬ e2 = "" →
      temporalTableToSQL (some { keyword := some kw, expr := some { keyword := some "from_to", fromE := some (.raw e1), toE := some (.raw e2) } }) =
        .ok (some (toUpperStr kw ++ " FROM " ++ e1 ++ " TO " ++ e2))) ∧
    (∀ (kw e1 e2 : String), ¬ kw = "" → ¬ e1 = "" → ¬ e2 = "" →
      temporalTableToSQL (some { keyword := some kw, expr := some { keyword := some "between_and", betweenE := some (.raw e1), andE := some (.raw e2) } }) =
        .ok (some (toUpperStr kw ++ " BETWEEN " ++ e1 ++ " AND " ++ e2))) ∧
    (∀ (kw e : String), ¬ kw = "" → ¬ e = "" →
      temporalTableToSQL (some { keyword := some kw, expr := some { keyword := some "contained", inE := some (.raw e) } }) =
        .ok (some (toUpperStr kw ++ " CONTAINED IN " ++ e))) ∧
    (∀ ts : String, ¬ ts = "" →
      tableToSQL { table := some "t", temporal_table := some { keyword := some "for_system_time", expr := some { keyword := some "as", ofE := some (.raw ts) } } } =
        .ok ("t FOR_SYSTEM_TIME AS OF " ++ ts)) := by
  refine ⟨?_, ?_, ?_, ?_, ?_⟩
  · intro kw e hkw he
    have hk := toUpperStr_ne_empty kw hkw
    simp [temporalTableToSQL, temporalTableOptionToSQL, exprToSQL, exprToSQLOpt,
      toUpper, joinHasVal, joinHasValS, filterHasVal, hasVal, hkw, he, hk,
      string_append_eq_empty_iff, String.intercalate, String.intercalate.go]
    apply String.ext
    simp [String.data_append]
  · intro kw e1 e2 hkw h1 h2
    have hk := toUpperStr_ne_empty kw hkw
    simp [temporalTableToSQL, temporalTableOptionToSQL, exprToSQL, exprToSQLOpt,
      toUpper, joinHasVal, joinHasValS, filterHasVal, hasVal, hkw, h1, h2, hk,
      string_append_eq_empty_iff, String.intercalate, String.intercalate.go]
    apply String.ext
    simp [String.data_append]
  · intro kw e1 e2 hkw h1 h2
    have hk := toUpperStr_ne_empty kw hkw
    simp [temporalTableToSQL, temporalTableOptionToSQL, exprToSQL, exprToSQLOpt,
      toUpper, joinHasVal, joinHasValS, filterHasVal, hasVal, hkw, h1, h2, hk,
      string_append_eq_empty_iff, String.intercalate, String.intercalate.go]
    apply String.ext
    simp [String.data_append]
  · intro kw e hkw he
    have hk := toUpperStr_ne_empty kw hkw
    simp [temporalTableToSQL, temporalTableOptionToSQL, exprToSQL, exprToSQLOpt,
      toUpper, joinHasVal, joinHasValS, filterHasVal, hasVal, hkw, he, hk,
      string_append_eq_empty_iff, String.intercalate, String.intercalate.go]
    apply String.ext
    simp [String.data_append]
  · intro ts hts
    have hk := toUpperStr_ne_empty "for_system_time" (by decide)
    simp [tableToSQL, tableNameFromExpr, temporalTableToSQL, temporalTableOptionToSQL,
      tableHintSegs, operatorToSQL, commonOptionConnectorAlias, identifierToSqlOpt,
      identifierToSql, exprToSQL, exprToSQLOpt, toUpper, joinHasVal, joinHasValS,
      filterHasVal, hasVal, jsStr, hts, hk,
      string_append_eq_empty_iff, String.intercalate, String.intercalate.go]
    apply String.ext
    simp [String.data_append, toUpperStr]

theorem temporalTableToSQL_rendering_witness :
    temporalTableToSQL (some { keyword := some "for_system_time", expr := some { keyword := some "as", ofE := some (.raw "2020-01-01") } }) =
      .ok (some "FOR_SYSTEM_TIME AS OF 2020-01-01") ∧
    temporalTableToSQL (some { keyword := some "for_system_time", expr := some { keyword := some "from_to", fromE := some (.raw "t1"), toE := some (.raw "t2") } }) =
      .ok (some "FOR_SYSTEM_TIME FROM t1 TO t2") ∧
    temporalTableToSQL (some { keyword := some "for_system_time", expr := some { keyword := some "between_and", betweenE := some (.raw "t1"), andE := some (.raw "t2") } }) =
      .ok (some "FOR_SYSTEM_TIME BETWEEN t1 AND t2") ∧
    temporalTableToSQL (some { keyword := some "for_system_time", expr := some { keyword := some "contained", inE := some (.raw "p1") } }) =
      .ok (some "FOR_SYSTEM_TIME CONTAINED IN p1") ∧
    tableToSQL { table := some "t", temporal_table := some { keyword := some "for_system_time", expr := some { keyword := some "as", ofE := some (.raw "2020-01-01") } } } =
      .ok "t FOR_SYSTEM_TIME AS OF 2020-01-01" := by
  refine ⟨?_, ?_, ?_, ?_, ?_⟩
  · exact temporalTableToSQL_rendering.1 "for_system_time" "2020-01-01" (by decide) (by decide)
  · exact temporalTableToSQL_rendering.2.1 "for_system_time" "t1" "t2" (by decide) (by decide) (by decide)
  · exact temporalTableToSQL_rendering.2.2.1 "for_system_time" "t1" "t2" (by decide) (by decide) (by decide)
  · exact temporalTableToSQL_rendering.2.2.2.1 "for_system_time" "p1" (by decide) (by decide)
  · exact temporalTableToSQL_rendering.2.2.2.2 "2020-01-01" (by decide)

theorem tableToSQL_tablesample_witness :
    tableToSQL { table := some "orders2", tablesample := some { expr := some (.raw "(1)"), repeatable := some (.raw "REPEATABLE (2)") } } =
      .ok "orders2 TABLESAMPLE (1) REPEATABLE (2)" :=
  tableToSQL_tablesample.1 "orders2" "(1)" "REPEATABLE (2)" (by decide) (by decide) (by decide)

/-- C5: each chain entry after the first renders, in order, the uppercased
join keyword with a leading space (or a comma when the keyword is absent),
the entry's own table rendering, `ON <condition>` when `on` is present, and
`USING (<col1>, <col2>, ...)` when `using` is present — both rendered, `on`
first, when both are present — and the two-entry example chain renders to
`orders INNER JOIN customers ON orders.id = customers.id`. -/
theorem tablesToSQL_join_entries :
    (∀ (t0 j : TableRef) (s0 s1 jk : String) (onE : Expr) (cols : List String),
      t0.type = none → tableToSQL t0 = .ok s0 → tableToSQL j = .ok s1 → ¬ s1 = "" →
      j.join = some jk → ¬ jk = "" → j.onC = some onE → j.usingC = some cols →
      (∀ c ∈ cols, ¬ c = "") →
      tablesToSQL (.arr [t0, j]) =
        .ok (s0 ++ " " ++ toUpperStr jk ++ " " ++ s1 ++ " ON " ++ exprToSQL onE ++
          " USING (" ++ String.intercalate ", " (cols.map identifierToSql) ++ ")")) ∧
    (∀ (t0 j : TableRef) (s0 s1 : String),
      t0.type = none → tableToSQL t0 = .ok s0 → tableToSQL j = .ok s1 → ¬ s1 = "" →
      j.join = none → j.onC = none → j.usingC = none →
      tablesToSQL (.arr [t0, j]) = .ok (s0 ++ ", " ++ s1)) ∧
    tablesToSQL (.arr [{ table := some "orders" },
      { join := some "INNER JOIN", table := some "customers", onC := some (.raw "orders.id = customers.id") }]) =
      .ok "orders INNER JOIN customers ON orders.id = customers.id" := by
  refine ⟨?_, ?_, by rfl⟩
  · intro t0 j s0 s1 jk onE cols hty h0 h1 hs1 hjk hjkne hon huse hcols
    have hmap : cols.map identifierToSqlJoinElem = cols.map identifierToSql :=
      List.map_congr_left (fun c hc => by
        simp [identifierToSqlJoinElem, identifierToSql, hcols c hc])
    have hku := toUpperStr_ne_empty jk hjkne
    by_cases hs0 : s0 = ""
    all_goals
      simp [tablesToSQL, joinClauses, joinClause, hty, h0, h1, hjk, hjkne, hon, huse,
        hcols, hmap, hs0, hs1, hku, commonOptionConnectorExpr, exprToSQL,
        identifierToSql, joinHasVal, filterHasVal, hasVal,
        string_append_eq_empty_iff, String.intercalate, String.intercalate.go,
        String.join]
    all_goals (try (apply String.ext; simp [String.data_append]))
  · intro t0 j s0 s1 hty h0 h1 hs1 hjk hon huse
    by_cases hs0 : s0 = ""
    all_goals
      simp [tablesToSQL, joinClauses, joinClause, hty, h0, h1, hjk, hon, huse,
        hs0, hs1, commonOptionConnectorExpr, joinHasVal, filterHasVal, hasVal,
        string_append_eq_empty_iff, String.intercalate, String.intercalate.go,
        String.join]
    all_goals (try (apply String.ext; simp [String.data_append]))

theorem tablesToSQL_join_entries_witness :
    tablesToSQL (.arr [{ table := some "a" },
      { join := some "left join", table := some "b", onC := some (.raw "a.x = b.x"), usingC := some ["x", "y"] }]) =
      .ok "a LEFT JOIN b ON a.x = b.x USING (x, y)" ∧
    tablesToSQL (.arr [{ table := some "a" }, { table := some "b" }]) = .ok "a, b" := by
  constructor
  · have h := tablesToSQL_join_entries.1 { table := some "a" }
      { join := some "left join", table := some "b", onC := some (.raw "a.x = b.x"), usingC := some ["x", "y"] }
      "a" "b" "left join" (.raw "a.x = b.x") ["x", "y"]
      rfl (by rfl) (by rfl) (by decide) rfl (by decide) rfl rfl (by decide)
    exact h
  · have h := tablesToSQL_join_entries.2.1 { table := some "a" } { table := some "b" }
      "a" "b" rfl (by rfl) (by rfl) (by decide) rfl rfl rfl
    exact h

/-- C7 counterexample: the UNNEST node of the claim, with with-offset keyword
`offset`, renders to `UNNEST(tags) AS t OFFSET pos` — not to
`UNNEST(tags) AS t WITH OFFSET AS pos` as the claim states: the renderer
emits no `AS` of its own inside the with-offset clause. -/
theorem unnestToSQL_with_offset_counterexample :
    unnestToSQL { type := some "unnest", expr := some (.other (.raw "tags")), as := some (.str "t"), with_offset := some { keyword := some "offset", as := some "pos" } } =
      "UNNEST(tags) AS t OFFSET pos" ∧
    ¬ unnestToSQL { type := some "unnest", expr := some (.other (.raw "tags")), as := some (.str "t"), with_offset := some { keyword := some "offset", as := some "pos" } } =
      "UNNEST(tags) AS t WITH OFFSET AS pos" := by
  exact ⟨rfl, by decide⟩

/-- C7 (amended): an UNNEST node renders `UNNEST(<expr>)`, then optionally
` AS <alias>`, then optionally the with-offset clause
`<OFFSET-KEYWORD> <identifier>` — the uppercased keyword and the identifier
with no `AS` inserted by the renderer; the text `WITH OFFSET AS` appears only
when it is itself the stored keyword, so the claim's example output needs
keyword `with offset as`, and with keyword `offset` the node renders to
`UNNEST(tags) AS t OFFSET pos`. -/
theorem unnestToSQL_rendering :
    (∀ (e t kw idv : String), ¬ t = "" → ¬ kw = "" → ¬ idv = "" →
      unnestToSQL { type := some "unnest", expr := some (.other (.raw e)), as := some (.str t), with_offset := some { keyword := some kw, as := some idv } } =
        "UNNEST(" ++ e ++ ") AS " ++ t ++ " " ++ toUpperStr kw ++ " " ++ idv) ∧
    unnestToSQL { type := some "unnest", expr := some (.other (.raw "tags")), as := some (.str "t"), with_offset := some { keyword := some "with offset as", as := some "pos" } } =
      "UNNEST(tags) AS t WITH OFFSET AS pos" := by
  constructor
  · intro e t kw idv ht hkw hidv
    have hku := toUpperStr_ne_empty kw hkw
    simp [unnestToSQL, exprToSQL, commonOptionConnectorAlias, commonOptionConnector,
      identifierToSql, toUpper, joinHasVal, filterHasVal, hasVal, jsStr,
      ht, hkw, hidv, hku, string_append_eq_empty_iff,
      String.intercalate, String.intercalate.go]
    apply String.ext
    simp [String.data_append, toUpperStr]
  · rfl

theorem unnestToSQL_rendering_witness :
    unnestToSQL { type := some "unnest", expr := some (.other (.raw "tags")), as := some (.str "t"), with_offset := some { keyword := some "offset", as := some "pos" } } =
      "UNNEST(tags) AS t OFFSET pos" :=
  unnestToSQL_rendering.1 "tags" "t" "offset" "pos" (by decide) (by decide) (by decide)

/-- The derived-table body carries the sub-fields its renderer dereferences:
a `tumble` body needs `data`, a `generator` body needs `generators`. -/
def tableExprOk : Option TableExpr → Bool
  | some (.tumble tu) => tu.data.isSome
  | some (.generator g) => g.generators.isSome
  | _ => true

/-- A present temporal clause carries the inner clause object that
`temporalTableOptionToSQL` destructures. -/
def temporalOk : Option TemporalTable → Bool
  | none => true
  | some tt => tt.expr.isSome

/-- A hint item carries the fields its keyword's arm dereferences: a keyword
at all, `index_columns` for `forceseek`, and an array-valued `expr` for the
parenthesized `index` form. -/
def hintItemOk (h : TableHint) : Bool :=
  match h.keyword with
  | none => false
  | some kw =>
      if toLowerStr kw = "forceseek" then h.index_columns.isSome
      else if toLowerStr kw = "index" then
        (if h.parentheses then
          (match h.expr with
           | some (.ids _) => true
           | _ => false)
         else true)
      else true

/-- A present hint clause carries its item array, and every item is
well-formed. -/
def hintClauseOk : Option TableHintClause → Bool
  | none => true
  | some c =>
      match c.expr with
      | none => false
      | some items => items.all hintItemOk

/-- All required sub-fields a table reference's renderer dereferences are
present. -/
def tableRefOk (ref : TableRef) : Bool :=
  tableExprOk ref.expr && temporalOk ref.temporal_table && hintClauseOk ref.table_hint

/-- A table option carries a keyword, and an array value under the keywords
that map over it. -/
def tableOptionOk (o : TableOption) : Bool :=
  match o.keyword with
  | none => false
  | some kw =>
      if kw = "options" ∨ kw = "cluster by" then
        (match o.value with
         | some (.list _) => true
         | _ => false)
      else true

theorem tableHintToSQL_isOk (h : TableHint) (hh : hintItemOk h = true) :
    rendersOk (tableHintToSQL h) = true := by
  unfold hintItemOk at hh
  cases hk : h.keyword with
  | none => rw [hk] at hh; simp at hh
  | some kw =>
      rw [hk] at hh
      simp only at hh
      unfold tableHintToSQL
      rw [hk]
      simp only
      split_ifs at hh ⊢
      all_goals
        first
          | (cases hic : h.index_columns with
              | none => rw [hic] at hh; simp at hh
              | some cols => simp [hic, rendersOk])
          | (cases hx : h.expr with
              | none => rw [hx] at hh; simp at hh
              | some hv =>
                  cases hv with
                  | ids l => simp [hx, rendersOk]
                  | expr e0 => rw [hx] at hh; simp at hh
                  | ident s0 => rw [hx] at hh; simp at hh)
          | simp [rendersOk]

theorem hintItemsToSQL_isOk (items : List TableHint) (hall : items.all hintItemOk = true) :
    rendersOk (hintItemsToSQL items) = true := by
  induction items with
  | nil => simp [hintItemsToSQL, rendersOk]
  | cons h rest ih =>
      simp only [List.all_cons, Bool.and_eq_true] at hall
      have h1 := tableHintToSQL_isOk h hall.1
      have h2 := ih hall.2
      cases hh : tableHintToSQL h with
      | error m => rw [hh] at h1; simp [rendersOk] at h1
      | ok s =>
          cases hr : hintItemsToSQL rest with
          | error m => rw [hr] at h2; simp [rendersOk] at h2
          | ok ss => simp [hintItemsToSQL, hh, hr, rendersOk]

theorem tableHintSegs_isOk (hc : Option TableHintClause) (h : hintClauseOk hc = true) :
    rendersOk (tableHintSegs hc) = true := by
  cases hc with
  | none => simp [tableHintSegs, rendersOk]
  | some c =>
      simp only [hintClauseOk] at h
      cases hx : c.expr with
      | none => simp only [hx] at h; exact absurd h (by simp)
      | some items =>
          simp only [hx] at h
          have h1 := hintItemsToSQL_isOk items h
          simp only [tableHintSegs, hx]
          cases hr : hintItemsToSQL items with
          | error m => rw [hr] at h1; simp [rendersOk] at h1
          | ok rendered => simp [hr, rendersOk]

theorem temporalTableToSQL_isOk (t : Option TemporalTable) (h : temporalOk t = true) :
    rendersOk (temporalTableToSQL t) = true := by
  cases t with
  | none => simp [temporalTableToSQL, rendersOk]
  | some tt =>
      simp only [temporalOk] at h
      cases hx : tt.expr with
      | none => simp [hx] at h
      | some o => simp [temporalTableToSQL, hx, rendersOk]

theorem tableNameFromExpr_isOk (e : Option TableExpr) (tn0 : Option String)
    (h : tableExprOk e = true) :
    rendersOk (tableNameFromExpr e tn0) = true := by
  cases e with
  | none => simp [tableNameFromExpr, rendersOk]
  | some te =>
      cases te with
      | values p v px => simp [tableNameFromExpr, rendersOk]
      | tumble tu =>
          simp only [tableExprOk] at h
          cases hd : tu.data with
          | none => rw [hd] at h; simp at h
          | some d =>
              simp [tableNameFromExpr, tableTumbleToSQL, hd, rendersOk, Except.map]
      | generator g =>
          simp only [tableExprOk] at h
          cases hg : g.generators with
          | none => rw [hg] at h; simp at h
          | some gs =>
              simp [tableNameFromExpr, generateVirtualTable, hg, rendersOk, Except.map]
      | other e0 => simp [tableNameFromExpr, rendersOk]

theorem exists_ok_of_rendersOk {α : Type} (x : Except String α) (h : rendersOk x = true) :
    ∃ v, x = .ok v := by
  cases x with
  | error m => simp [rendersOk] at h
  | ok v => exact ⟨v, rfl⟩

theorem tableToSQL_isOk (ref : TableRef) (h : tableRefOk ref = true) :
    rendersOk (tableToSQL ref) = true := by
  simp only [tableRefOk, Bool.and_eq_true] at h
  obtain ⟨⟨hexpr, htemp⟩, hhint⟩ := h
  obtain ⟨tn, he⟩ := exists_ok_of_rendersOk _ (tableNameFromExpr_isOk ref.expr
    (ref.table.map (fun t => if t = "" then "" else identifierToSql t)) hexpr)
  obtain ⟨tseg, ht⟩ := exists_ok_of_rendersOk _ (temporalTableToSQL_isOk ref.temporal_table htemp)
  obtain ⟨hparts, hh⟩ := exists_ok_of_rendersOk _ (tableHintSegs_isOk ref.table_hint hhint)
  by_cases hu : toUpper ref.type = some "UNNEST"
  · simp [tableToSQL, hu, rendersOk]
  · simp [tableToSQL, hu, he, ht, hh, rendersOk]

theorem joinClauses_isOk (rest : List TableRef) (h : rest.all tableRefOk = true) :
    rendersOk (joinClauses rest) = true := by
  induction rest with
  | nil => simp [joinClauses, rendersOk]
  | cons j tl ih =>
      simp only [List.all_cons, Bool.and_eq_true] at h
      obtain ⟨s1, hj⟩ := exists_ok_of_rendersOk _ (tableToSQL_isOk j h.1)
      obtain ⟨ss, htl⟩ := exists_ok_of_rendersOk _ (ih h.2)
      simp [joinClauses, joinClause, hj, htl, rendersOk]

theorem tablesToSQL_arr_isOk (t0 : TableRef) (rest : List TableRef)
    (h0 : tableRefOk t0 = true) (h1 : rest.all tableRefOk = true) :
    rendersOk (tablesToSQL (.arr (t0 :: rest))) = true := by
  obtain ⟨s0, hb⟩ := exists_ok_of_rendersOk _ (tableToSQL_isOk t0 h0)
  obtain ⟨ss, hr⟩ := exists_ok_of_rendersOk _ (joinClauses_isOk rest h1)
  by_cases hd : t0.type = some "dual"
  · simp [tablesToSQL, hd, rendersOk]
  · simp [tablesToSQL, hd, hb, hr, rendersOk]

theorem tableOptionToSQL_isOk (o : TableOption) (h : tableOptionOk o = true) :
    rendersOk (tableOptionToSQL o) = true := by
  unfold tableOptionOk at h
  cases hk : o.keyword with
  | none => rw [hk] at h; simp at h
  | some kw =>
      rw [hk] at h
      simp only at h
      unfold tableOptionToSQL
      rw [hk]
      simp only
      split_ifs at h ⊢
      all_goals
        first
          | (cases hv : o.value with
              | none => rw [hv] at h; simp at h
              | some tv =>
                  cases tv with
                  | single e0 => rw [hv] at h; simp at h
                  | list xs => simp [hv, rendersOk])
          | (solve | simp [rendersOk])
          | (solve | simp_all)

/-- C2 counterexample: the renderers can raise a fault on malformed input —
a table hint without a `keyword` hits `keyword.toLowerCase()` on `undefined`,
and an empty chain array hits `tables[0].type` on `undefined`; neither
degrades to an empty segment. -/
theorem renderers_never_fault_counterexample :
    tableHintToSQL { } =
      .error "TypeError: Cannot read properties of undefined (reading toLowerCase)" ∧
    tablesToSQL (.arr []) =
      .error "TypeError: Cannot read properties of undefined (reading type)" :=
  ⟨rfl, rfl⟩

/-- C2 (amended): the renderers never fault on unknown discriminants or absent
optional fields — rendering succeeds for every table reference, chain, hint
item and table option whose present sub-structures carry the fields their
renderer dereferences (`tableRefOk`, `hintItemOk`, `tableOptionOk`) — but a
missing required field does fault: a hint without a keyword, an empty chain
array, a table option without a keyword, and a temporal clause without its
inner object all throw instead of rendering an empty segment. -/
theorem renderers_total_on_required_fields :
    (∀ ref : TableRef, tableRefOk ref = true → rendersOk (tableToSQL ref) = true) ∧
    (∀ (t0 : TableRef) (rest : List TableRef), tableRefOk t0 = true →
      rest.all tableRefOk = true → rendersOk (tablesToSQL (.arr (t0 :: rest))) = true) ∧
    (∀ h : TableHint, hintItemOk h = true → rendersOk (tableHintToSQL h) = true) ∧
    (∀ o : TableOption, tableOptionOk o = true → rendersOk (tableOptionToSQL o) = true) ∧
    rendersOk (tableHintToSQL { }) = false ∧
    rendersOk (tablesToSQL (.arr [])) = false ∧
    rendersOk (tableOptionToSQL { }) = false ∧
    rendersOk (temporalTableToSQL (some { keyword := some "for_system_time" })) = false :=
  ⟨tableToSQL_isOk, fun t0 rest h0 h1 => tablesToSQL_arr_isOk t0 rest h0 h1,
   tableHintToSQL_isOk, tableOptionToSQL_isOk, rfl, rfl, rfl, rfl⟩

theorem renderers_total_on_required_fields_witness :
    rendersOk (tableToSQL { table := some "w1" }) = true ∧
    rendersOk (tablesToSQL (.arr [{ table := some "w1" }, { table := some "w2", join := some "JOIN" }])) = true ∧
    rendersOk (tableHintToSQL { keyword := some "nolock" }) = true ∧
    rendersOk (tableOptionToSQL { keyword := some "engine", symbol := some "=", value := some (.single (.raw "InnoDB")) }) = true :=
  ⟨renderers_total_on_required_fields.1 _ (by decide),
   renderers_total_on_required_fields.2.1 _ _ (by decide) (by decide),
   renderers_total_on_required_fields.2.2.1 _ (by decide),
   renderers_total_on_required_fields.2.2.2.1 _ (by decide)⟩
